import Mathlib

/-!
Shallow embedding of `gatsby-functions-middleware` (src/index.ts).

The library is a set of guard functions ("middleware") wrapping a terminal
request handler, plus a composer `combineMiddleware` built on lodash
`flowRight`.

Modelling choices, each traceable to the source:

* A request carries an optional method string and an optional headers object
  (`req.method` and `req.headers` may both be `undefined` in JS); the headers
  object is an association list with JS property access modelled as exact-key
  lookup.
* The response object is mutated by chained calls `res.status(..)`,
  `res.setHeader(..)`, `res.send(..)`; we model it as an append-only log of
  those calls, in the order they are performed.  `setHeader` values may be
  strings or numbers in JS (`res.setHeader('Access-Control-Max-Age', n)`), so
  header values are a sum type.
* A handler returns either the response object itself (`return res.send(..)`)
  or whatever the next stage returned (`return next(req, res)`); the return
  value is `Ret α` with `Ret.fromRes` standing for "returned the res object".
* The authorizer of `withAuthorization` is declared in the source as
  `(authorizationHeaderValue: string) => Promise<boolean>`, but the guard
  calls it synchronously and tests truthiness of the raw return value without
  `await`.  A call therefore either throws synchronously (`Except.error`) or
  returns a JS value: a plain boolean (what the repository's test-suite
  passes) or a promise (what the declared type produces).  JS truthiness of
  the returned value: `false` is falsy, `true` is truthy, and any promise
  object is truthy regardless of what it later resolves or rejects with.
-/

namespace GFM

/-- A header value as passed to `res.setHeader`: a string or a JS number. -/
inductive HVal where
  | str (s : String)
  | num (n : Int)
deriving DecidableEq, Repr

/-- One call performed on the response object. -/
inductive Action where
  | status (code : Nat)
  | setHeader (name : String) (value : HVal)
  | send (body : String)
deriving DecidableEq, Repr

/-- The response object, as the ordered log of calls performed on it. -/
structure Res where
  log : List Action
deriving DecidableEq, Repr

/-- Append further chained calls to the response object. -/
def Res.push (r : Res) (acts : List Action) : Res :=
  ⟨r.log ++ acts⟩

/-- The request object: `req.method` and `req.headers` may be absent. -/
structure Request where
  method : Option String
  headers : Option (List (String × String))
deriving DecidableEq, Repr

/-- What a handler returns: the response object (`return res.send(..)`)
or a value propagated from the next stage. -/
inductive Ret (α : Type) where
  | fromRes
  | val (a : α)
deriving DecidableEq, Repr

/-- `type GatsbyFunction = (req, res) => any`, with the response-object
mutation made explicit by threading `Res`. -/
abbrev GatsbyFunction (α : Type) := Request → Res → Res × Ret α

/-- `type GatsbyFunctionMiddleware = (next: GatsbyFunction) => GatsbyFunction`. -/
abbrev GatsbyFunctionMiddleware (α : Type) := GatsbyFunction α → GatsbyFunction α

/-- lodash `flow(...fns)`: apply the functions left to right. -/
def flow {β : Type u} (fns : List (β → β)) : β → β :=
  fun x => fns.foldl (fun acc f => f acc) x

/-- lodash `flowRight(...fns)`: `flow` of the reversed list, i.e. apply the
functions right to left. -/
def flowRight {β : Type u} (fns : List (β → β)) : β → β :=
  flow fns.reverse

/-- `combineMiddleware = (...middleware) => flowRight(...middleware)`. -/
def combineMiddleware {α : Type} (middleware : List (GatsbyFunctionMiddleware α)) :
    GatsbyFunctionMiddleware α :=
  flowRight middleware

/-- JS `methods.includes(req.method)`: an absent method (`undefined`) is a
member of no string list; otherwise exact, case-sensitive membership. -/
def jsIncludes (xs : List String) (v : Option String) : Bool :=
  match v with
  | some s => xs.contains s
  | none => false

/-- `withHttpMethods` (src/index.ts lines 34-42). -/
def withHttpMethods {α : Type} (methods : List String) : GatsbyFunctionMiddleware α :=
  fun next req res =>
    if !(jsIncludes methods req.method) then
      (res.push [.status 405, .send "Method Not Allowed"], .fromRes)
    else
      next req res

/-- ASCII lowercasing of one character, as JS `toLowerCase` acts on the
ASCII range relevant to HTTP method and media-type tokens. -/
def jsCharLower (c : Char) : Char :=
  if c.isUpper then Char.ofNat (c.toNat + 32) else c

/-- JS `s.toLowerCase()` on ASCII strings. -/
def jsToLower (s : String) : String :=
  ⟨s.data.map jsCharLower⟩

/-- JS `req.headers?.['content-type']?.toLowerCase() ?? ''`:
optional chaining off a possibly absent headers object and key,
lowercasing when present, empty string when anything was absent. -/
def contentTypeOf (req : Request) : String :=
  ((req.headers.bind (fun hs => hs.lookup "content-type")).map jsToLower).getD ""

/-- `withContentTypes` (src/index.ts lines 47-55). -/
def withContentTypes {α : Type} (contentTypes : List String) : GatsbyFunctionMiddleware α :=
  fun next req res =>
    if !(contentTypes.contains (contentTypeOf req)) then
      (res.push [.status 415, .send "Unsupported Media Type"], .fromRes)
    else
      next req res

/-- Outcome of a promise, were it ever awaited. -/
inductive PromiseOutcome where
  | resolved (b : Bool)
  | rejected
deriving DecidableEq, Repr

/-- The JS value a (non-throwing) authorizer call returns: a plain boolean,
or a promise as the declared type `Promise<boolean>` prescribes. -/
inductive JsReturn where
  | bool (b : Bool)
  | promise (o : PromiseOutcome)
deriving DecidableEq, Repr

/-- JS truthiness of the returned value: a promise is an object and hence
always truthy; it is never awaited by the guard. -/
def JsReturn.truthy : JsReturn → Bool
  | .bool b => b
  | .promise _ => true

/-- `type AuthorizerFunction`: called synchronously by the guard; a call
either throws (`Except.error`) or returns a JS value. -/
abbrev AuthorizerFunction := String → Except Unit JsReturn

/-- `withAuthorization` (src/index.ts lines 67-85): read
`req.headers?.authorization`; `!header` (absent or empty) gives 401; then
`try { if (!authorizer(header)) return 403 } catch { return 401 }`; otherwise
delegate.  The authorizer's return value is tested for truthiness raw,
without `await`, exactly as in the source. -/
def withAuthorization {α : Type} (authorizer : AuthorizerFunction) :
    GatsbyFunctionMiddleware α :=
  fun next req res =>
    match req.headers.bind (fun hs => hs.lookup "authorization") with
    | none => (res.push [.status 401, .send "Unauthorized"], .fromRes)
    | some header =>
      if header = "" then
        (res.push [.status 401, .send "Unauthorized"], .fromRes)
      else
        match authorizer header with
        | .error _ => (res.push [.status 401, .send "Unauthorized"], .fromRes)
        | .ok v =>
          if !v.truthy then
            (res.push [.status 403, .send "Forbidden"], .fromRes)
          else
            next req res

/-- `type CorsConfig` (src/index.ts lines 87-122).  `maxAge` is declared as
`number`, but the guard applies `?? 5`, so absence (`null`/`undefined`) is
representable and is modelled by `none`. -/
structure CorsConfig where
  allowOrigin : String
  allowHeaders : String
  allowMethods : String
  allowCredentials : Bool
  maxAge : Option Int
deriving DecidableEq, Repr

/-- JS nullish coalescing `x ?? d`: the default fires only when `x` is
`null`/`undefined`; `0` is kept. -/
def jsNullish (x : Option Int) (d : Int) : Int :=
  x.getD d

/-- JS `req.method?.toLowerCase() === 'options'`. -/
def isOptionsMethod (req : Request) : Bool :=
  req.method.map jsToLower = some "options"

/-- `withCors` (src/index.ts lines 124-145). -/
def withCors {α : Type} (corsConfig : CorsConfig) : GatsbyFunctionMiddleware α :=
  fun next req res =>
    if isOptionsMethod req then
      let res1 := res.push
        [.setHeader "Allow" (.str corsConfig.allowMethods),
         .setHeader "Access-Control-Allow-Origin" (.str corsConfig.allowOrigin),
         .setHeader "Access-Control-Allow-Headers" (.str corsConfig.allowHeaders),
         .setHeader "Access-Control-Allow-Methods" (.str corsConfig.allowMethods),
         .status 204]
      let res2 :=
        if corsConfig.allowCredentials then
          res1.push [.setHeader "Access-Control-Allow-Credentials" (.str "true")]
        else
          res1
      let res3 :=
        res2.push [.setHeader "Access-Control-Max-Age" (.num (jsNullish corsConfig.maxAge 5))]
      (res3.push [.send ""], .fromRes)
    else
      next req res

/-! Concrete sample data used to instantiate the theorems below. -/

/-- A sample terminal handler: writes a 200 response and returns 1. -/
def demoHandler : GatsbyFunction Nat :=
  fun _ res => (res.push [.status 200, .send "ok"], .val 1)

/-- A fresh response object. -/
def demoRes : Res := ⟨[]⟩

/-- A request carrying a non-empty authorization header. -/
def authReq : Request := ⟨some "POST", some [("authorization", "Bearer token")]⟩

/-- The CORS configuration exercised by the repository's test suite. -/
def corsCfg : CorsConfig := ⟨"*", "x-special-header", "GET", true, some 0⟩

/-- A preflight request. -/
def optionsReq : Request := ⟨some "OPTIONS", none⟩

/-- Recognises a `setHeader` call for `Access-Control-Max-Age`. -/
def isMaxAgeHeader : Action → Bool
  | .setHeader n _ => n == "Access-Control-Max-Age"
  | _ => false

/-! Helper lemmas shared by the claim theorems. -/

theorem mem_contains_string (l : List String) (s : String) :
    l.contains s = true ↔ s ∈ l :=
  List.elem_iff

theorem contains_eq_false_of_not_mem (l : List String) (s : String) (h : s ∉ l) :
    l.contains s = false := by
  cases hc : l.contains s
  · rfl
  · exact absurd ((mem_contains_string l s).mp hc) h

theorem contentTypeOf_eq (req : Request) :
    contentTypeOf req
      = jsToLower ((req.headers.bind (fun hs => hs.lookup "content-type")).getD "") := by
  unfold contentTypeOf
  cases req.headers.bind (fun hs => hs.lookup "content-type") <;> rfl

theorem res_push_push (r : Res) (a b : List Action) :
    (r.push a).push b = r.push (a ++ b) := by
  simp [Res.push]

/-- The full list of response calls `withCors` performs on a preflight
request, in source order. -/
theorem withCors_preflight_eq {α : Type} (cfg : CorsConfig) (next : GatsbyFunction α)
    (req : Request) (res : Res) (hm : isOptionsMethod req = true) :
    withCors cfg next req res =
      (res.push
        ([.setHeader "Allow" (.str cfg.allowMethods),
          .setHeader "Access-Control-Allow-Origin" (.str cfg.allowOrigin),
          .setHeader "Access-Control-Allow-Headers" (.str cfg.allowHeaders),
          .setHeader "Access-Control-Allow-Methods" (.str cfg.allowMethods),
          .status 204]
         ++ (if cfg.allowCredentials then
               [.setHeader "Access-Control-Allow-Credentials" (.str "true")]
             else [])
         ++ [.setHeader "Access-Control-Max-Age" (.num (jsNullish cfg.maxAge 5)),
             .send ""]),
       .fromRes) := by
  unfold withCors
  cases hcred : cfg.allowCredentials <;>
    simp [hm, hcred, Res.push, List.append_assoc]

/-! The claim theorems. -/

/-- C1: `combineMiddleware [g1, …, gn] handler = g1 (g2 (… (gn handler)))`
(stated as the right fold of application over the guard list), and composing
the empty sequence returns the handler unchanged.  Since `g1` is the
outermost wrapper of the composed handler and the terminal handler sits
innermost, `g1`'s logic runs first and the terminal handler runs last. -/
theorem combineMiddleware_spec {α : Type} (ms : List (GatsbyFunctionMiddleware α))
    (handler : GatsbyFunction α) :
    combineMiddleware ms handler = ms.foldr (fun g k => g k) handler
  ∧ combineMiddleware ([] : List (GatsbyFunctionMiddleware α)) handler = handler := by
  constructor
  · show flow ms.reverse handler = _
    unfold flow
    rw [List.foldl_reverse]
  · rfl

/-- C6: for a non-empty allowed-methods list `M`, the method guard rejects a
request whose method is not a case-sensitive member of `M` (and any request
without a method) with status 405 and body "Method Not Allowed", never
invoking the next stage; when the method is a member it behaves exactly as
one invocation of the next stage on the same request/response pair,
returning its result unchanged. -/
theorem withHttpMethods_spec {α : Type} (M : List String) (hM : M ≠ [])
    (next : GatsbyFunction α) (req : Request) (res : Res) :
    withHttpMethods M next req res =
      match req.method with
      | some m =>
        if m ∈ M then next req res
        else (res.push [.status 405, .send "Method Not Allowed"], .fromRes)
      | none => (res.push [.status 405, .send "Method Not Allowed"], .fromRes) := by
  clear hM
  unfold withHttpMethods jsIncludes
  cases req.method with
  | none => simp
  | some m =>
    by_cases hm : m ∈ M
    · simp [hm, (mem_contains_string M m).mpr hm]
    · simp [hm, contains_eq_false_of_not_mem M m hm]

/-- C6 witness: `M = ["GET"]`, a `POST` request is rejected. -/
theorem withHttpMethods_spec_witness :
    (["GET"] : List String) ≠ []
  ∧ withHttpMethods ["GET"] demoHandler ⟨some "POST", none⟩ demoRes =
      match (⟨some "POST", none⟩ : Request).method with
      | some m =>
        if m ∈ (["GET"] : List String) then demoHandler ⟨some "POST", none⟩ demoRes
        else (demoRes.push [.status 405, .send "Method Not Allowed"], .fromRes)
      | none => (demoRes.push [.status 405, .send "Method Not Allowed"], .fromRes) :=
  ⟨by decide, withHttpMethods_spec ["GET"] (by decide) demoHandler ⟨some "POST", none⟩ demoRes⟩

/-- C10: a request with no method at all (`req.method` undefined) is
rejected by the method guard with 405 "Method Not Allowed" and the next
stage is not invoked, whatever the allowed list is: `undefined` is a member
of no string list. -/
theorem withHttpMethods_noMethod {α : Type} (M : List String)
    (next : GatsbyFunction α) (req : Request) (res : Res) (h : req.method = none) :
    withHttpMethods M next req res =
      (res.push [.status 405, .send "Method Not Allowed"], .fromRes) := by
  unfold withHttpMethods jsIncludes
  rw [h]
  simp

/-- C10 witness: the empty request against `["GET", "POST"]`. -/
theorem withHttpMethods_noMethod_witness :
    (⟨none, none⟩ : Request).method = none
  ∧ withHttpMethods ["GET", "POST"] demoHandler ⟨none, none⟩ demoRes =
      (demoRes.push [.status 405, .send "Method Not Allowed"], .fromRes) :=
  ⟨rfl, withHttpMethods_noMethod ["GET", "POST"] demoHandler ⟨none, none⟩ demoRes rfl⟩

/-- C7: the content-type guard lowercases the request's content-type header
(a missing headers object or missing header counts as the empty string) and
tests exact string membership in the configured list, which is used as
given, not lowercased; non-members get 415 "Unsupported Media Type" with the
next stage not invoked, members delegate. -/
theorem withContentTypes_spec {α : Type} (cts : List String)
    (next : GatsbyFunction α) (req : Request) (res : Res) :
    withContentTypes cts next req res =
      (if jsToLower ((req.headers.bind (fun hs => hs.lookup "content-type")).getD "") ∈ cts
       then next req res
       else (res.push [.status 415, .send "Unsupported Media Type"], .fromRes)) := by
  unfold withContentTypes
  rw [← contentTypeOf_eq]
  by_cases hc : contentTypeOf req ∈ cts
  · simp [hc, (mem_contains_string cts _).mpr hc]
  · simp [hc, contains_eq_false_of_not_mem cts _ hc]

/-- C2: the claim fails on the code.  With the authorization header present
and an authorizer conforming to the declared type
`(authorizationHeaderValue: string) => Promise<boolean>` whose result
resolves to `false` (a falsy verdict), the guard does not respond 403: the
returned promise object is truthy as-is and is never awaited, so
`if (!authorizer(header))` is never taken and the guard delegates to the
next stage (first conjunct).  The 403 path is reachable only when the
authorizer returns a bare `false` synchronously, as the repository's tests
do (second conjunct). -/
theorem withAuthorization_resolvedFalse_bug :
    withAuthorization (fun _ => .ok (.promise (.resolved false)))
        demoHandler authReq demoRes
      = demoHandler authReq demoRes
  ∧ withAuthorization (fun _ => .ok (.bool false)) demoHandler authReq demoRes
      = (demoRes.push [.status 403, .send "Forbidden"], .fromRes) :=
  ⟨rfl, rfl⟩

/-- C3: the claim fails on the code.  A rejected future is never awaited,
so the guard neither catches it nor responds 401 — it delegates to the next
stage and the rejection escapes as an unhandled rejection (first conjunct).
The other 401 cases of the claim do hold: a synchronous throw is caught and
answered with 401 (second conjunct), and an absent authorization header is
answered with 401 without invoking the next stage (third conjunct). -/
theorem withAuthorization_rejected_bug :
    withAuthorization (fun _ => .ok (.promise .rejected)) demoHandler authReq demoRes
      = demoHandler authReq demoRes
  ∧ withAuthorization (fun _ => .error ()) demoHandler authReq demoRes
      = (demoRes.push [.status 401, .send "Unauthorized"], .fromRes)
  ∧ withAuthorization (fun _ => .ok (.bool true)) demoHandler ⟨some "POST", none⟩ demoRes
      = (demoRes.push [.status 401, .send "Unauthorized"], .fromRes) :=
  ⟨rfl, rfl, rfl⟩

/-- C4: on a preflight request (method equals OPTIONS case-insensitively)
the CORS guard sets `Allow` and `Access-Control-Allow-Methods` to the
configured allow-methods, `Access-Control-Allow-Origin` to the configured
allow-origin, `Access-Control-Allow-Headers` to the configured
allow-headers, sets status 204, sets `Access-Control-Allow-Credentials` to
the string "true" exactly when allow-credentials is true, sends an empty
body, and never invokes the next stage (the result does not depend on
`next` and returns the response object). -/
theorem withCors_options_spec {α : Type} (cfg : CorsConfig) (next : GatsbyFunction α)
    (req : Request) (res : Res) (hm : isOptionsMethod req = true) :
    withCors cfg next req res =
      (res.push
        ([.setHeader "Allow" (.str cfg.allowMethods),
          .setHeader "Access-Control-Allow-Origin" (.str cfg.allowOrigin),
          .setHeader "Access-Control-Allow-Headers" (.str cfg.allowHeaders),
          .setHeader "Access-Control-Allow-Methods" (.str cfg.allowMethods),
          .status 204]
         ++ (if cfg.allowCredentials then
               [.setHeader "Access-Control-Allow-Credentials" (.str "true")]
             else [])
         ++ [.setHeader "Access-Control-Max-Age" (.num (jsNullish cfg.maxAge 5)),
             .send ""]),
       .fromRes) :=
  withCors_preflight_eq cfg next req res hm

/-- C4 witness: the test suite's configuration on an `OPTIONS` request. -/
theorem withCors_options_spec_witness :
    isOptionsMethod optionsReq = true
  ∧ withCors corsCfg demoHandler optionsReq demoRes =
      (demoRes.push
        ([.setHeader "Allow" (.str corsCfg.allowMethods),
          .setHeader "Access-Control-Allow-Origin" (.str corsCfg.allowOrigin),
          .setHeader "Access-Control-Allow-Headers" (.str corsCfg.allowHeaders),
          .setHeader "Access-Control-Allow-Methods" (.str corsCfg.allowMethods),
          .status 204]
         ++ (if corsCfg.allowCredentials then
               [.setHeader "Access-Control-Allow-Credentials" (.str "true")]
             else [])
         ++ [.setHeader "Access-Control-Max-Age" (.num (jsNullish corsCfg.maxAge 5)),
             .send ""]),
       .fromRes) :=
  ⟨by decide, withCors_options_spec corsCfg demoHandler optionsReq demoRes (by decide)⟩

/-- C5: on a preflight request the guard writes exactly one
`Access-Control-Max-Age` header among its own writes, whose value is the
configured max-age with the default 5 substituted only when the max-age is
absent (`none`, i.e. JS `null`/`undefined`, via `??`); in particular an
explicitly configured max-age of 0 yields header value 0, not 5. -/
theorem withCors_maxAge_spec {α : Type} (cfg : CorsConfig) (next : GatsbyFunction α)
    (req : Request) (res : Res) (hm : isOptionsMethod req = true) :
    ∃ written, (withCors cfg next req res).1 = res.push written
      ∧ written.filter isMaxAgeHeader =
          [.setHeader "Access-Control-Max-Age" (.num (jsNullish cfg.maxAge 5))]
      ∧ (cfg.maxAge = some 0 →
          written.filter isMaxAgeHeader =
            [.setHeader "Access-Control-Max-Age" (.num 0)]) := by
  refine ⟨_, by rw [withCors_preflight_eq cfg next req res hm], ?_, ?_⟩
  · cases cfg.allowCredentials <;>
      simp [isMaxAgeHeader, List.filter_append]
  · intro h0
    cases cfg.allowCredentials <;>
      simp [isMaxAgeHeader, List.filter_append, h0, jsNullish]

/-- C5 witness: the test suite's configuration, `maxAge = some 0`, on an
`OPTIONS` request. -/
theorem withCors_maxAge_spec_witness :
    isOptionsMethod optionsReq = true
  ∧ ∃ written, (withCors corsCfg demoHandler optionsReq demoRes).1 = demoRes.push written
      ∧ written.filter isMaxAgeHeader =
          [.setHeader "Access-Control-Max-Age" (.num (jsNullish corsCfg.maxAge 5))]
      ∧ (corsCfg.maxAge = some 0 →
          written.filter isMaxAgeHeader =
            [.setHeader "Access-Control-Max-Age" (.num 0)]) :=
  ⟨by decide, withCors_maxAge_spec corsCfg demoHandler optionsReq demoRes (by decide)⟩

/-- C8: on any request whose method is not OPTIONS (case-insensitively),
including requests without a method, the CORS guard behaves exactly as one
invocation of the next stage on the same request/response pair: its result
is returned unchanged and the guard performs no header, status or body
write of its own. -/
theorem withCors_nonOptions_spec {α : Type} (cfg : CorsConfig) (next : GatsbyFunction α)
    (req : Request) (res : Res) (hm : isOptionsMethod req = false) :
    withCors cfg next req res = next req res := by
  unfold withCors
  simp [hm]

/-- C8 witness: a `GET` request with the test suite's configuration. -/
theorem withCors_nonOptions_spec_witness :
    isOptionsMethod ⟨some "GET", none⟩ = false
  ∧ withCors corsCfg demoHandler ⟨some "GET", none⟩ demoRes
      = demoHandler ⟨some "GET", none⟩ demoRes :=
  ⟨by decide, withCors_nonOptions_spec corsCfg demoHandler ⟨some "GET", none⟩ demoRes (by decide)⟩

/-- C9: each guard is total over request data — for every request,
including one with no method and no headers object at all, and for every
configuration and authorizer, the guard's outcome is either appending
response writes of its own and returning the response object, or exactly
one delegation to the next stage; no other outcome (in particular no
uncaught error) exists. -/
theorem guards_total {α : Type} :
    (∀ (M : List String) (next : GatsbyFunction α) (req : Request) (res : Res),
      (∃ acts, withHttpMethods M next req res = (res.push acts, .fromRes))
      ∨ withHttpMethods M next req res = next req res)
  ∧ (∀ (cts : List String) (next : GatsbyFunction α) (req : Request) (res : Res),
      (∃ acts, withContentTypes cts next req res = (res.push acts, .fromRes))
      ∨ withContentTypes cts next req res = next req res)
  ∧ (∀ (au : AuthorizerFunction) (next : GatsbyFunction α) (req : Request) (res : Res),
      (∃ acts, withAuthorization au next req res = (res.push acts, .fromRes))
      ∨ withAuthorization au next req res = next req res)
  ∧ (∀ (cfg : CorsConfig) (next : GatsbyFunction α) (req : Request) (res : Res),
      (∃ acts, withCors cfg next req res = (res.push acts, .fromRes))
      ∨ withCors cfg next req res = next req res) := by
  refine ⟨?_, ?_, ?_, ?_⟩
  · intro M next req res
    unfold withHttpMethods
    cases h : jsIncludes M req.method
    · exact Or.inl ⟨[.status 405, .send "Method Not Allowed"], by simp [h]⟩
    · exact Or.inr (by simp [h])
  · intro cts next req res
    unfold withContentTypes
    cases h : cts.contains (contentTypeOf req)
    · exact Or.inl ⟨[.status 415, .send "Unsupported Media Type"], by simp [h]⟩
    · exact Or.inr (by simp [h])
  · intro au next req res
    unfold withAuthorization
    cases hh : req.headers.bind (fun hs => hs.lookup "authorization") with
    | none => exact Or.inl ⟨[.status 401, .send "Unauthorized"], by simp [hh]⟩
    | some header =>
      by_cases he : header = ""
      · exact Or.inl ⟨[.status 401, .send "Unauthorized"], by simp [hh, he]⟩
      · cases hau : au header with
        | error e =>
          exact Or.inl ⟨[.status 401, .send "Unauthorized"], by simp [hh, he, hau]⟩
        | ok v =>
          cases hv : v.truthy
          · exact Or.inl ⟨[.status 403, .send "Forbidden"], by simp [hh, he, hau, hv]⟩
          · exact Or.inr (by simp [hh, he, hau, hv])
  · intro cfg next req res
    cases h : isOptionsMethod req
    · refine Or.inr ?_
      unfold withCors
      simp [h]
    · exact Or.inl
        ⟨[.setHeader "Allow" (.str cfg.allowMethods),
          .setHeader "Access-Control-Allow-Origin" (.str cfg.allowOrigin),
          .setHeader "Access-Control-Allow-Headers" (.str cfg.allowHeaders),
          .setHeader "Access-Control-Allow-Methods" (.str cfg.allowMethods),
          .status 204]
         ++ (if cfg.allowCredentials then
               [.setHeader "Access-Control-Allow-Credentials" (.str "true")]
             else [])
         ++ [.setHeader "Access-Control-Max-Age" (.num (jsNullish cfg.maxAge 5)),
             .send ""],
         withCors_preflight_eq cfg next req res h⟩

end GFM
